import Mathlib

/-!
Verification development for the house-price-prediction app (`src/app.py`).

The program is a single Streamlit script that loads a pickled regression
model and a pickled feature-name list, gathers seven bounded inputs from a
form, calls `model.predict` on a one-row record, and renders a point
estimate, a fixed-width band, and a ranked feature-importance list.

Shallow embedding conventions:
* Python numbers (ints and floats) are modelled as exact rationals `ℚ`.
* The single-row `pandas.DataFrame` built by `prepare_input` is modelled as
  an ordered association list `List (String × ℚ)`: each Python dict entry
  `name: [value]` becomes the pair `(name, value)` (insertion order is
  preserved, as in Python 3.7+ dicts and in the DataFrame column order).
* The opaque pickled model is a structure with a fallible `predict`
  operation and a `feature_importances` vector.
* Reading-and-unpickling a file is modelled by a `FileRead` value: the file
  is present and deserializes (`found`), is absent (`missing`), or fails to
  deserialize (`corrupt`).
* `st.error` calls are modelled by accumulating the message strings;
  decorative characters and quotes of the original messages are elided.
* `DataFrame.sort_values(by, ascending=False)` is modelled faithfully to
  pandas `nargsort`: for descending order both the value array and the
  index array are reversed, the reversed values are argsorted ascending,
  the indices are read off through the reversed index array, and the
  resulting indexer is reversed again (pandas GH 6399: descending sort is
  stable, ties keep original order).  The importance vectors here are far
  below numpy's small-array cutoff, where `argsort(kind=quicksort)` runs a
  stable insertion sort, so the ascending argsort is modelled as a stable
  insertion sort on indices.
-/

namespace HousePrice

open List

/-- Hardcoded standard deviation used for the displayed band
(`MODEL_STD_DEV = 19013` in the source); a literal constant, not derived
from the model artifact. -/
def MODEL_STD_DEV : ℚ := 19013

/-- The opaque pickled model object: the code uses it only through
`predict` (which may raise, modelled by `Except`) and
`feature_importances_`. -/
structure Model where
  predict : List (String × ℚ) → Except String (List ℚ)
  feature_importances : List ℚ

/-- Outcome of opening and unpickling a file at a fixed path. -/
inductive FileRead (α : Type) where
  | found : α → FileRead α
  | missing : FileRead α
  | corrupt : String → FileRead α

/-- `load_model` from the source: returns the unpickled object on success;
on `FileNotFoundError` or any other exception it shows an error message
and returns `None`.  The second component collects the `st.error`
messages. -/
def load_model (file : FileRead Model) : Option Model × List String :=
  match file with
  | .found m => (some m, [])
  | .missing => (none,
      ["Model file not found: house_price_model.pkl. Please ensure the file is in the correct directory."])
  | .corrupt e => (none, ["An error occurred while loading the model: " ++ e])

/-- `load_feature_names` from the source: returns the unpickled list on
success; on `FileNotFoundError` or any other exception it shows an error
message and returns the empty list. -/
def load_feature_names (file : FileRead (List String)) : List String × List String :=
  match file with
  | .found l => (l, [])
  | .missing => ([], ["Feature names file not found: feature_names.pkl."])
  | .corrupt e => ([], ["An error occurred while loading feature names: " ++ e])

/-- `prepare_input` from the source: the seven scalar inputs assembled into
a single-row record whose columns appear in the dict insertion order. -/
def prepare_input (bedrooms bathrooms area age quality garage neighborhood_encoded : ℚ) :
    List (String × ℚ) :=
  [("BedroomAbvGr", bedrooms),
   ("TotalBathrooms", bathrooms),
   ("TotalArea", area),
   ("HouseAge", age),
   ("OverallQual", quality),
   ("GarageCars", garage),
   ("Neighborhood_encoded", neighborhood_encoded)]

/-- Modelled from the spec: the contents of the serialized feature-name
artifact `feature_names.pkl` are not part of the source tree.  The spec
states that the loaded feature-name list has exactly the cardinality and
ordering of the model's expected input vector, i.e. the seven columns of
`prepare_input` in order. -/
def specFeatureNames : List String :=
  ["BedroomAbvGr", "TotalBathrooms", "TotalArea", "HouseAge",
   "OverallQual", "GarageCars", "Neighborhood_encoded"]

/-- The closed set of choices offered by the Neighborhood selectbox. -/
inductive Neighborhood where
  | averageArea
  | goodArea
  | premiumArea
deriving DecidableEq

/-- `neighborhood_map` from the source: the fixed categorical encoding
Average Area ↦ 5, Good Area ↦ 10, Premium Area ↦ 15. -/
def neighborhood_map : Neighborhood → ℤ
  | .averageArea => 5
  | .goodArea => 10
  | .premiumArea => 15

/-- The selectbox option list, in source order. -/
def neighborhood_options : List Neighborhood :=
  [.averageArea, .goodArea, .premiumArea]

/-- An integer slider configuration (`st.slider` with int bounds;
step defaults to 1, so values are integers). -/
structure IntSlider where
  min_value : ℤ
  max_value : ℤ
  value : ℤ

/-- A float slider configuration (`st.slider` with float bounds and an
explicit step). -/
structure RatSlider where
  min_value : ℚ
  max_value : ℚ
  value : ℚ
  step : ℚ

/-- An integer `st.number_input` configuration. -/
structure IntNumberInput where
  min_value : ℤ
  max_value : ℤ
  value : ℤ

/-- `st.slider("Bedrooms", min_value=1, max_value=10, value=3)`. -/
def bedrooms_slider : IntSlider := ⟨1, 10, 3⟩

/-- `st.slider("Total Bathrooms", min_value=0.5, max_value=10.0, value=2.0, step=0.5)`. -/
def bathrooms_slider : RatSlider := ⟨1/2, 10, 2, 1/2⟩

/-- `st.number_input("Total Area (sqft)", min_value=500, max_value=20000, value=1500)`. -/
def area_input : IntNumberInput := ⟨500, 20000, 1500⟩

/-- `st.slider("House Age (years)", min_value=0, max_value=100, value=10)`. -/
def age_slider : IntSlider := ⟨0, 100, 10⟩

/-- `st.slider("Overall Quality (1-10)", min_value=1, max_value=10, value=7)`. -/
def quality_slider : IntSlider := ⟨1, 10, 7⟩

/-- `st.slider("Garage Cars", min_value=0, max_value=5, value=2)`. -/
def garage_slider : IntSlider := ⟨0, 5, 2⟩

/-- A value an integer slider widget can submit. -/
def validIntSlider (w : IntSlider) (x : ℤ) : Prop :=
  w.min_value ≤ x ∧ x ≤ w.max_value

/-- A value a float slider widget can submit: within bounds and on the
step grid anchored at the minimum. -/
def validRatSlider (w : RatSlider) (x : ℚ) : Prop :=
  w.min_value ≤ x ∧ x ≤ w.max_value ∧ ∃ k : ℕ, x = w.min_value + k * w.step

/-- A value an integer number-input widget can submit. -/
def validIntNumberInput (w : IntNumberInput) (x : ℤ) : Prop :=
  w.min_value ≤ x ∧ x ≤ w.max_value

/-- One submission of the sidebar form: the seven collected inputs. -/
structure FormInput where
  bedrooms : ℤ
  bathrooms : ℚ
  area : ℤ
  age : ℤ
  quality : ℤ
  garage : ℤ
  neighborhood : Neighborhood

/-- The set of form states the widgets allow the user to submit. -/
def ValidFormInput (inp : FormInput) : Prop :=
  validIntSlider bedrooms_slider inp.bedrooms ∧
  validRatSlider bathrooms_slider inp.bathrooms ∧
  validIntNumberInput area_input inp.area ∧
  validIntSlider age_slider inp.age ∧
  validIntSlider quality_slider inp.quality ∧
  validIntSlider garage_slider inp.garage ∧
  inp.neighborhood ∈ neighborhood_options

/-- `lower_bound = predicted_price - MODEL_STD_DEV` from the source. -/
def lower_bound (predicted_price : ℚ) : ℚ := predicted_price - MODEL_STD_DEV

/-- `upper_bound = predicted_price + MODEL_STD_DEV` from the source. -/
def upper_bound (predicted_price : ℚ) : ℚ := predicted_price + MODEL_STD_DEV

/-- Stable ascending argsort of a value vector, as numpy
`argsort(kind=quicksort)` performs on arrays below the small-array cutoff
(a stable insertion sort on indices ordered by their values). -/
def argsortAsc (v : List ℚ) : List ℕ :=
  (List.range v.length).insertionSort (fun i j => v.getD i 0 ≤ v.getD j 0)

/-- pandas `nargsort(..., ascending=False)` (pandas/core/sorting.py, the
behavior fixed by GH 6399): the value array and the index array are both
reversed, the reversed values are argsorted ascending (stably), the
indices are read through the reversed index array, and the resulting
indexer is reversed.  The composition is a stable descending sort: ties
keep their original order. -/
def nargsortDesc (v : List ℚ) : List ℕ :=
  ((argsortAsc v.reverse).map
      (fun i => (List.range v.length).reverse.getD i 0)).reverse

/-- The rendered importance ranking: the rows of
`importance_df.sort_values(Importance, ascending=False)`, i.e. the
(feature, importance) pairs reordered by the descending argsort. -/
def importanceRanking (feature_names : List String) (imps : List ℚ) :
    List (String × ℚ) :=
  (nargsortDesc imps).map (fun i => (feature_names.getD i "", imps.getD i 0))

/-- `input_df = prepare_input(bedrooms, bathrooms, area, age, quality,
garage, neighborhood_encoded)` at the submission site (line 88). -/
def inputRecord (inp : FormInput) : List (String × ℚ) :=
  prepare_input (inp.bedrooms : ℚ) inp.bathrooms (inp.area : ℚ) (inp.age : ℚ)
    (inp.quality : ℚ) (inp.garage : ℚ) ((neighborhood_map inp.neighborhood : ℤ) : ℚ)

/-- What one submission renders. -/
inductive RenderOutcome where
  | results : ℚ → ℚ → ℚ → List (String × ℚ) → RenderOutcome
  | predictionError : String → RenderOutcome
deriving DecidableEq

/-- The `if submitted:` block (lines 85-133): build the one-row record,
call `model.predict` once, take element `[0]` of the result, derive the
band, and build the sorted importance list.  Any exception inside the
block (a raising `predict`, indexing an empty result, or the DataFrame
constructor rejecting mismatched column lengths) is caught by the
`except` clause and rendered as a generic error message. -/
def handleSubmit (model : Model) (feature_names : List String) (inp : FormInput) :
    RenderOutcome :=
  match model.predict (inputRecord inp) with
  | .error e => .predictionError ("An unexpected prediction error occurred: " ++ e)
  | .ok preds =>
    match preds with
    | [] => .predictionError
        "An unexpected prediction error occurred: index 0 is out of bounds"
    | p :: _ =>
      if feature_names.length = model.feature_importances.length then
        .results p (lower_bound p) (upper_bound p)
          (importanceRanking feature_names model.feature_importances)
      else
        .predictionError
          "An unexpected prediction error occurred: All arrays must be of the same length"

/-- Everything observable from one top-to-bottom run of the script. -/
structure RunResult where
  outcome : Option RenderOutcome
  stopped : Bool
  errors : List String
deriving DecidableEq

/-- One Streamlit rerun of the script: load both artifacts, halt via
`st.stop()` when the model is `None` or the feature list is falsy
(line 62), otherwise render the form and, if this rerun carries a
submission, process it.  Reruns share no mutable state, so each run is a
pure function of the two artifact files and the submitted form. -/
def scriptRun (mf : FileRead Model) (ff : FileRead (List String))
    (submission : Option FormInput) : RunResult :=
  let lm := load_model mf
  let lf := load_feature_names ff
  match lm.1 with
  | none => { outcome := none, stopped := true, errors := lm.2 ++ lf.2 }
  | some m =>
    if lf.1.isEmpty then
      { outcome := none, stopped := true, errors := lm.2 ++ lf.2 }
    else
      match submission with
      | none => { outcome := none, stopped := false, errors := lm.2 ++ lf.2 }
      | some inp =>
        { outcome := some (handleSubmit m lf.1 inp), stopped := false,
          errors := lm.2 ++ lf.2 }

/-- A pair of indices in order is a sublist of `range n`. -/
theorem pair_sublist_range {i j n : ℕ} (hij : i < j) (hjn : j < n) :
    [i, j] <+ List.range n := by
  induction n with
  | zero => omega
  | succ n ih =>
    rcases Nat.lt_succ_iff_lt_or_eq.mp hjn with hj | hj
    · exact (ih hj).trans (List.range_sublist.mpr (Nat.le_succ n))
    · subst hj
      rw [List.range_succ]
      have h1 : [i] <+ List.range j := List.singleton_sublist.mpr (List.mem_range.mpr hij)
      simpa using h1.append (List.Sublist.refl [j])

/-- Reading every position of a list back with `getD` reproduces the list. -/
theorem map_getD_self (l : List ℚ) :
    (List.range l.length).map (fun i => l.getD i 0) = l := by
  induction l with
  | nil => simp
  | cons a l ih =>
    rw [List.length_cons, List.range_succ_eq_map, List.map_cons, List.map_map]
    simp only [Function.comp_def, Nat.succ_eq_add_one, List.getD_cons_zero,
      List.getD_cons_succ]
    rw [ih]

/-- Reading position `i` of the reversed index range gives `n - 1 - i`. -/
theorem getD_range_reverse {n i : ℕ} (h : i < n) :
    (List.range n).reverse.getD i 0 = n - 1 - i := by
  have h1 : i < (List.range n).reverse.length := by simpa using h
  rw [List.getD_eq_getElem _ _ h1, List.getElem_reverse]
  simp

/-- Reading position `i` of a reversed list reads position `n - 1 - i` of
the original. -/
theorem getD_reverse_eq (l : List ℚ) {i : ℕ} (h : i < l.length) :
    l.reverse.getD i 0 = l.getD (l.length - 1 - i) 0 := by
  have h1 : i < l.reverse.length := by simpa using h
  have h2 : l.length - 1 - i < l.length := by omega
  rw [List.getD_eq_getElem _ _ h1, List.getElem_reverse, List.getD_eq_getElem _ _ h2]

/-- Mapping the index range through the reversed index range reverses it. -/
theorem map_idx_range (n : ℕ) :
    (List.range n).map (fun i => (List.range n).reverse.getD i 0) =
      (List.range n).reverse := by
  apply List.ext_getElem
  · simp
  · intro k h1 h2
    simp only [List.getElem_map, List.getElem_range, List.getElem_reverse]
    rw [getD_range_reverse]
    · simp
    · simpa using h1

/-- The descending argsort is a permutation of the index range. -/
theorem nargsortDesc_perm (v : List ℚ) :
    List.Perm (nargsortDesc v) (List.range v.length) := by
  have hs : List.Perm (argsortAsc v.reverse) (List.range v.length) := by
    simpa [argsortAsc] using
      List.perm_insertionSort
        (fun i j => v.reverse.getD i 0 ≤ v.reverse.getD j 0)
        (List.range v.reverse.length)
  have h2 : List.Perm
      ((argsortAsc v.reverse).map (fun i => (List.range v.length).reverse.getD i 0))
      (List.range v.length) := by
    refine (hs.map _).trans ?_
    rw [map_idx_range]
    exact List.reverse_perm _
  exact (List.reverse_perm _).trans h2

/-- Multiplying the entries of a list multiplies its sum. -/
theorem sum_map_mul_hundred (l : List ℚ) :
    (l.map fun b => b * 100).sum = l.sum * 100 := by
  induction l with
  | nil => simp
  | cons a l ih => simp [ih, add_mul]

/-- C1: for every valid input tuple, the single-row record assembled by
`prepare_input` has exactly the field set and field order of the loaded
feature-name list (modelled from the spec, the artifact being external). -/
theorem C1_field_order (bedrooms bathrooms area age quality garage ne : ℚ) :
    (prepare_input bedrooms bathrooms area age quality garage ne).map Prod.fst =
      specFeatureNames := by
  rfl

/-- C3: the displayed band is `p ± MODEL_STD_DEV` with the hardcoded
constant 19013: lower bound is the estimate minus the constant, upper
bound the estimate plus it, the band is symmetric around the estimate,
and its width does not depend on the input. -/
theorem C3_fixed_band (p q : ℚ) :
    lower_bound p = p - MODEL_STD_DEV ∧
    upper_bound p = p + MODEL_STD_DEV ∧
    MODEL_STD_DEV = 19013 ∧
    upper_bound p - p = p - lower_bound p ∧
    upper_bound p - lower_bound p = upper_bound q - lower_bound q := by
  refine ⟨rfl, rfl, rfl, ?_, ?_⟩ <;>
    simp [lower_bound, upper_bound]

/-- C4: the neighborhood encoding sends the three choices to 5, 10 and 15
respectively, and every element of the closed choice set encodes to one of
exactly these three integers. -/
theorem C4_neighborhood_encoding :
    neighborhood_map .averageArea = 5 ∧
    neighborhood_map .goodArea = 10 ∧
    neighborhood_map .premiumArea = 15 ∧
    ∀ n : Neighborhood,
      neighborhood_map n = 5 ∨ neighborhood_map n = 10 ∨ neighborhood_map n = 15 := by
  refine ⟨rfl, rfl, rfl, fun n => ?_⟩
  cases n <;> simp [neighborhood_map]

/-- C2: the rendered ranking is stable-sorted descending: the displayed
importance values are in descending order, and for every pair of indices
`i < j` whose importances tie, index `i` still precedes index `j` in the
descending argsort — equal importances keep their original feature
order. -/
theorem C2_stable_descending_ranking (feature_names : List String) (imps : List ℚ) :
    ((importanceRanking feature_names imps).map Prod.snd).Sorted (fun a b => b ≤ a) ∧
    ∀ i j : ℕ, i < j → j < imps.length → imps.getD i 0 = imps.getD j 0 →
      [i, j] <+ nargsortDesc imps := by
  haveI htot : IsTotal ℕ (fun i j => imps.reverse.getD i 0 ≤ imps.reverse.getD j 0) :=
    ⟨fun a b => le_total _ _⟩
  haveI htrans : IsTrans ℕ (fun i j => imps.reverse.getD i 0 ≤ imps.reverse.getD j 0) :=
    ⟨fun a b c hab hbc => le_trans hab hbc⟩
  have hs : List.Sorted (fun i j => imps.reverse.getD i 0 ≤ imps.reverse.getD j 0)
      (argsortAsc imps.reverse) := List.sorted_insertionSort _ _
  have hmem : ∀ i ∈ argsortAsc imps.reverse, i < imps.length := by
    intro i hi
    have h := (List.mem_insertionSort _).mp hi
    simpa using h
  constructor
  · have key : (importanceRanking feature_names imps).map Prod.snd =
        ((argsortAsc imps.reverse).map (fun i => imps.reverse.getD i 0)).reverse := by
      simp only [importanceRanking, nargsortDesc, List.map_map, List.map_reverse]
      congr 1
      apply List.map_congr_left
      intro i hi
      have hin : i < imps.length := hmem i hi
      simp only [Function.comp_def]
      rw [getD_range_reverse hin, getD_reverse_eq imps hin]
    rw [key, List.Sorted, List.pairwise_reverse]
    exact hs.map _ (fun a b hab => hab)
  · intro i j hij hjn hv
    have hin : i < imps.length := lt_trans hij hjn
    have hj' : imps.length - 1 - j < imps.length := by omega
    have hi' : imps.length - 1 - i < imps.length := by omega
    have hji : imps.length - 1 - j < imps.length - 1 - i := by omega
    have e1 : imps.length - 1 - (imps.length - 1 - j) = j := by omega
    have e2 : imps.length - 1 - (imps.length - 1 - i) = i := by omega
    have hw : imps.reverse.getD (imps.length - 1 - j) 0 ≤
        imps.reverse.getD (imps.length - 1 - i) 0 := by
      rw [getD_reverse_eq imps hj', getD_reverse_eq imps hi', e1, e2]
      exact le_of_eq hv.symm
    have hpair : [imps.length - 1 - j, imps.length - 1 - i] <+
        List.range imps.reverse.length := by
      simpa using pair_sublist_range hji hi'
    have hsub : [imps.length - 1 - j, imps.length - 1 - i] <+ argsortAsc imps.reverse :=
      List.pair_sublist_insertionSort
        (r := fun a b => imps.reverse.getD a 0 ≤ imps.reverse.getD b 0) hw hpair
    have hmap := hsub.map (fun k => (List.range imps.length).reverse.getD k 0)
    have hgj : (List.range imps.length).reverse.getD (imps.length - 1 - j) 0 = j := by
      rw [getD_range_reverse hj']
      omega
    have hgi : (List.range imps.length).reverse.getD (imps.length - 1 - i) 0 = i := by
      rw [getD_range_reverse hi']
      omega
    rw [List.map_cons, List.map_cons, List.map_nil, hgj, hgi] at hmap
    simpa [nargsortDesc] using hmap.reverse

/-- C2 witness: the theorem applied at a concrete vector with a tie: the
ranking of `[3, 3, 5]` is sorted descending and the tied index 0 precedes
index 1 in the descending argsort. -/
theorem C2_witness :
    ((importanceRanking ["a", "b", "c"] [3, 3, 5]).map Prod.snd).Sorted (fun a b => b ≤ a) ∧
    (0 : ℕ) < 1 ∧ 1 < [(3 : ℚ), 3, 5].length ∧
    [(3 : ℚ), 3, 5].getD 0 0 = [(3 : ℚ), 3, 5].getD 1 0 ∧
    [0, 1] <+ nargsortDesc [3, 3, 5] :=
  ⟨(C2_stable_descending_ranking ["a", "b", "c"] [3, 3, 5]).1,
   by decide, by decide, by decide,
   (C2_stable_descending_ranking ["a", "b", "c"] [3, 3, 5]).2 0 1
     (by decide) (by decide) (by decide)⟩

/-- C5: the rendered importance list has the same length as the loaded
feature-name list, and when the raw importances sum to 1 the displayed
percentages (each raw importance times 100) sum to exactly 100 (floats
are modelled as exact rationals, so the tolerance is 0). -/
theorem C5_length_and_percent_sum (feature_names : List String) (imps : List ℚ)
    (hlen : feature_names.length = imps.length) (hsum : imps.sum = 1) :
    (importanceRanking feature_names imps).length = feature_names.length ∧
    ((importanceRanking feature_names imps).map (fun p => p.2 * 100)).sum = 100 := by
  constructor
  · simp [importanceRanking, nargsortDesc, argsortAsc, List.length_insertionSort, hlen]
  · have hmap : List.Perm ((nargsortDesc imps).map (fun i => imps.getD i 0 * 100))
        ((List.range imps.length).map (fun i => imps.getD i 0 * 100)) :=
      (nargsortDesc_perm imps).map _
    have hrange : (List.range imps.length).map (fun i => imps.getD i 0 * 100) =
        imps.map (fun x => x * 100) := by
      rw [show (fun i => imps.getD i 0 * 100) =
          (fun x => x * 100) ∘ (fun i => imps.getD i 0) from rfl,
        ← List.map_map, map_getD_self]
    simp only [importanceRanking, List.map_map, Function.comp_def]
    rw [hmap.sum_eq, hrange, sum_map_mul_hundred, hsum, one_mul]

/-- C5 witness: the theorem applied at the concrete lists `["x", "y"]` and
`[1, 0]`, whose lengths agree and whose importances sum to 1. -/
theorem C5_witness :
    ["x", "y"].length = [(1 : ℚ), 0].length ∧ [(1 : ℚ), 0].sum = 1 ∧
    (importanceRanking ["x", "y"] [1, 0]).length = 2 ∧
    ((importanceRanking ["x", "y"] [1, 0]).map (fun p => p.2 * 100)).sum = 100 :=
  ⟨by decide, by simp,
   (C5_length_and_percent_sum ["x", "y"] [1, 0] (by decide) (by simp)).1,
   (C5_length_and_percent_sum ["x", "y"] [1, 0] (by decide) (by simp)).2⟩

/-- C6: if the model file is missing at startup, `load_model` reports a
user-visible error and returns an absent result, and the run halts via
`st.stop` with nothing rendered and no unhandled error; if the
feature-names file is missing, `load_feature_names` reports an error and
returns the empty list, and the run halts the same way. -/
theorem C6_missing_artifacts_halt (ff : FileRead (List String)) (mf : FileRead Model)
    (sub : Option FormInput) :
    (load_model .missing).1 = none ∧
    (load_model .missing).2 ≠ [] ∧
    (scriptRun .missing ff sub).stopped = true ∧
    (scriptRun .missing ff sub).outcome = none ∧
    (load_feature_names .missing).1 = [] ∧
    (load_feature_names .missing).2 ≠ [] ∧
    (scriptRun mf .missing sub).stopped = true ∧
    (scriptRun mf .missing sub).outcome = none := by
  refine ⟨rfl, by simp [load_model], rfl, rfl, rfl, by simp [load_feature_names], ?_, ?_⟩ <;>
    cases mf <;> simp [scriptRun, load_model, load_feature_names]

/-- C7: every exception raised by the prediction call is caught and
rendered as the generic error message; the run does not halt (the form
stays usable), and a subsequent submission is processed by exactly the
same single-call handler — no retry and no fallback result is shown. -/
theorem C7_prediction_error_recovered (model : Model) (feature_names : List String)
    (inp : FormInput) (e : String) (hne : feature_names ≠ [])
    (hp : model.predict (inputRecord inp) = .error e) :
    handleSubmit model feature_names inp =
      .predictionError ("An unexpected prediction error occurred: " ++ e) ∧
    scriptRun (.found model) (.found feature_names) (some inp) =
      { outcome := some (.predictionError ("An unexpected prediction error occurred: " ++ e)),
        stopped := false, errors := [] } ∧
    ∀ inp2 : FormInput,
      (scriptRun (.found model) (.found feature_names) (some inp2)).outcome =
        some (handleSubmit model feature_names inp2) := by
  have h1 : handleSubmit model feature_names inp =
      .predictionError ("An unexpected prediction error occurred: " ++ e) := by
    simp [handleSubmit, hp]
  refine ⟨h1, ?_, ?_⟩
  · simp [scriptRun, load_model, load_feature_names, List.isEmpty_iff, hne, h1]
  · intro inp2
    simp [scriptRun, load_model, load_feature_names, List.isEmpty_iff, hne]

/-- A concrete model whose prediction operation always raises. -/
def failModel : Model where
  predict := fun _ => .error "boom"
  feature_importances := [1]

/-- C7 witness: the theorem applied to a concrete always-raising model. -/
theorem C7_witness :
    (["f"] : List String) ≠ [] ∧
    failModel.predict (inputRecord ⟨3, 2, 1500, 10, 7, 2, .goodArea⟩) = .error "boom" ∧
    handleSubmit failModel ["f"] ⟨3, 2, 1500, 10, 7, 2, .goodArea⟩ =
      .predictionError ("An unexpected prediction error occurred: " ++ "boom") :=
  ⟨by simp, rfl,
   (C7_prediction_error_recovered failModel ["f"] ⟨3, 2, 1500, 10, 7, 2, .goodArea⟩
     "boom" (by simp) rfl).1⟩

/-- C8: a submission assembles exactly one single-row record with exactly
the seven named fields, feeds it to the model's predict operation, and
displays the first element of the returned result together with the band
and the importance ranking; the example inputs encode the neighborhood to
10 and produce a record of exactly 7 named fields. -/
theorem C8_submission_flow (model : Model) (feature_names : List String) (inp : FormInput)
    (p : ℚ) (rest : List ℚ)
    (hp : model.predict (inputRecord inp) = .ok (p :: rest))
    (hlen : feature_names.length = model.feature_importances.length) :
    handleSubmit model feature_names inp =
      .results p (lower_bound p) (upper_bound p)
        (importanceRanking feature_names model.feature_importances) ∧
    (inputRecord inp).length = 7 ∧
    (inputRecord inp).map Prod.fst = specFeatureNames ∧
    neighborhood_map .goodArea = 10 ∧
    (prepare_input 3 2 1500 10 7 2 10).length = 7 := by
  refine ⟨?_, rfl, rfl, rfl, rfl⟩
  simp [handleSubmit, hp, hlen]

/-- A concrete stand-in model used to evaluate the submission flow: it
always predicts 185000 and reports a seven-entry importance vector. -/
def exampleModel : Model where
  predict := fun _ => .ok [185000]
  feature_importances := [1, 0, 0, 0, 0, 0, 0]

/-- The example inputs named by the spec: bedrooms=3, bathrooms=2.0,
area=1500, age=10, quality=7, garage=2, neighborhood=Good Area. -/
def exampleInput : FormInput := ⟨3, 2, 1500, 10, 7, 2, .goodArea⟩

/-- C8 witness: the theorem applied to the spec's example inputs and a
concrete model returning a one-element result. -/
theorem C8_witness :
    exampleModel.predict (inputRecord exampleInput) = .ok (185000 :: []) ∧
    specFeatureNames.length = exampleModel.feature_importances.length ∧
    handleSubmit exampleModel specFeatureNames exampleInput =
      .results 185000 (lower_bound 185000) (upper_bound 185000)
        (importanceRanking specFeatureNames exampleModel.feature_importances) ∧
    neighborhood_map exampleInput.neighborhood = 10 :=
  ⟨rfl, rfl,
   (C8_submission_flow exampleModel specFeatureNames exampleInput 185000 [] rfl rfl).1,
   rfl⟩

/-- C9: the seven form controls carry exactly the stated fixed bounds —
bedrooms in [1, 10], bathrooms in [0.5, 10] on the 0.5 step grid, area in
[500, 20000], age in [0, 100], quality in [1, 10], garage in [0, 5] — and
the categorical control offers exactly the three neighborhood choices, so
no submittable form state lies outside these ranges. -/
theorem C9_form_bounds :
    (∀ inp : FormInput, ValidFormInput inp ↔
      (1 ≤ inp.bedrooms ∧ inp.bedrooms ≤ 10) ∧
      (1/2 ≤ inp.bathrooms ∧ inp.bathrooms ≤ 10 ∧
        ∃ k : ℕ, inp.bathrooms = 1/2 + k * (1/2)) ∧
      (500 ≤ inp.area ∧ inp.area ≤ 20000) ∧
      (0 ≤ inp.age ∧ inp.age ≤ 100) ∧
      (1 ≤ inp.quality ∧ inp.quality ≤ 10) ∧
      (0 ≤ inp.garage ∧ inp.garage ≤ 5) ∧
      inp.neighborhood ∈ neighborhood_options) ∧
    ∀ n : Neighborhood, n ∈ neighborhood_options := by
  refine ⟨fun inp => Iff.rfl, fun n => ?_⟩
  cases n <;> simp [neighborhood_options]

/-- C10: a feature-names file that exists and deserializes to the empty
list makes `load_feature_names` return exactly the empty list a load
failure returns, and the startup guard halts the run just as it does on a
load failure, even though the model artifact loaded successfully. -/
theorem C10_empty_features_indistinguishable (m : Model) (sub : Option FormInput) :
    (load_feature_names (.found [])).1 = [] ∧
    (load_feature_names (.found [])).1 = (load_feature_names .missing).1 ∧
    scriptRun (.found m) (.found []) sub =
      { outcome := none, stopped := true, errors := [] } ∧
    (scriptRun (.found m) (.found []) sub).outcome =
      (scriptRun (.found m) .missing sub).outcome ∧
    (scriptRun (.found m) (.found []) sub).stopped =
      (scriptRun (.found m) .missing sub).stopped :=
  ⟨rfl, rfl, rfl, rfl, rfl⟩

end HousePrice
